import Mathlib

/-!
Verification development for the Lunatic-Python bridge (`luainpython.c`).

The C sources are shallowly embedded: the Lua value stack, the Lua registry
and the table heap become explicit fields of a state record `St`; every
C function that manipulates the Lua state becomes a Lean function from `St`
to `St` paired with its C return value.  Lua numbers (`lua_Number`, a C
double holding exactly representable values in all the scenarios below) are
modelled as rationals; the C cast `(long)num` becomes truncation toward
zero on rationals.  Host (Python) allocation failure is modelled by an
allocation oracle `allocOk` consumed one tick per object creation, so that
`PyString_FromStringAndSize`, `PyInt_FromLong`, `PyFloat_FromDouble`,
`PyTuple_New` and `PyObject_New` can return NULL exactly where the C can.
The Python error indicator (`PyErr_SetString`/`PyErr_Format`) is a mutable
`Option (ErrKind × String)` field.  `lua_pcall` and `luaL_loadbuffer` run
arbitrary external Lua code, so they are parametrised by the semantics of
the callee (`GuestFn`) and of the compiler (`String → Except String
LuaValue`); everything else is translated line by line from the source.

The Lua stack is stored top-first: the head of the list is the top of the
stack, matching negative Lua stack indices directly.
-/

/-- Guest (Lua) values.  `table`, `func` and `thread` carry an identity;
table contents live in `St.tables`.  `userdata` optionally carries the id
of a wrapped Host object (the `py_object` box of `pythoninlua.c`);
`userdata none` is a foreign userdata that is not a wrapper. -/
inductive LuaValue where
  | nil
  | boolean (b : Bool)
  | number (q : ℚ)
  | str (s : String)
  | table (id : Nat)
  | func (id : Nat)
  | userdata (host : Option Nat)
  | thread (id : Nat)
deriving DecidableEq, Repr

/-- Host (Python) values, as far as the bridge observes them. -/
inductive PyValue where
  | none
  | bool (b : Bool)
  | int (z : ℤ)
  | float (q : ℚ)
  | str (s : String)
  | tuple (xs : List PyValue)
  | luaObject (ref : Int) (refiter : Int)
  | hostObj (id : Nat)
deriving Repr

/-- The Python exception classes the bridge raises. -/
inductive ErrKind where
  | runtimeError
  | typeError
  | valueError
  | exceptionError
deriving DecidableEq, Repr

/-- Lua 5.1 constant `LUA_NOREF`. -/
def LUA_NOREF : Int := -2

/-- Lua 5.1 constant `LUA_REFNIL`. -/
def LUA_REFNIL : Int := -1

/-- The panic-handler id representing the module-level handler
`py_lua_module_panic` installed at state creation. -/
def modulePanicId : Nat := 0

/-- The panic-handler id representing `py_lua_panic`, the longjmp target
installed by the `TRY` macro. -/
def pyLuaPanicId : Nat := 1

/-- The combined Guest/Host state the embedded functions act on. -/
structure St where
  /-- the Lua value stack, top element first -/
  stack : List LuaValue
  /-- the Lua registry (`LUA_REGISTRYINDEX`), as handle/value pairs -/
  registry : List (Int × LuaValue)
  /-- next registry handle `luaL_ref` hands out -/
  nextRef : Int
  /-- contents of each Lua table, as key/value pairs in iteration order -/
  tables : List (Nat × List (LuaValue × LuaValue))
  /-- Host objects wrapped as Guest userdata, by wrap id -/
  hostObjs : List (Nat × PyValue)
  /-- next wrap id -/
  nextHost : Nat
  /-- the currently installed Lua panic handler (`lua_atpanic`) -/
  panic : Nat
  /-- the Python error indicator -/
  err : Option (ErrKind × String)
  /-- allocation oracle: whether the k-th Host allocation succeeds -/
  allocOk : Nat → Bool
  /-- number of Host allocations performed so far -/
  tick : Nat
  /-- number of times `Py_DECREF` was applied to a NULL pointer -/
  decrefNulls : Nat

/-- Build a state with the given stack, registry, tables and allocation
oracle, everything else fresh. -/
def mkSt (stk : List LuaValue) (reg : List (Int × LuaValue))
    (tbls : List (Nat × List (LuaValue × LuaValue))) (alloc : Nat → Bool) : St :=
  { stack := stk, registry := reg, nextRef := 1, tables := tbls,
    hostObjs := [], nextHost := 0, panic := modulePanicId, err := .none,
    allocOk := alloc, tick := 0, decrefNulls := 0 }

/-- The always-succeeding allocation oracle. -/
def allocAll : Nat → Bool := fun _ => true

/-- Every Host allocation succeeds in this state. -/
def AllocsOk (st : St) : Prop := ∀ n, st.allocOk n = true

/-- Perform one Host allocation: consume a tick, report success. -/
def allocTick (st : St) : St × Bool :=
  ({ st with tick := st.tick + 1 }, st.allocOk st.tick)

/-- Set the Python error indicator (`PyErr_SetString` / `PyErr_Format`). -/
def pyErrSet (st : St) (k : ErrKind) (m : String) : St :=
  { st with err := some (k, m) }

/-- Model of `Py_DECREF` as used on a possibly-NULL conversion result: a
NULL argument is undefined behavior in the Host API, counted here. -/
def pyDecref (o : Option PyValue) (st : St) : St :=
  match o with
  | .none => { st with decrefNulls := st.decrefNulls + 1 }
  | some _ => st

/-- Push a value on the Lua stack. -/
def push (st : St) (v : LuaValue) : St := { st with stack := v :: st.stack }

/-- Pop one value (`lua_pop(L, 1)`). -/
def pop1 (st : St) : St := { st with stack := st.stack.tail }

/-- The top of the stack (index -1), nil when the stack is empty. -/
def top (st : St) : LuaValue := st.stack.headD .nil

/-- Reset the stack (`lua_settop(L, 0)`). -/
def settop0 (st : St) : St := { st with stack := [] }

/-- Read a stack slot by Lua index: positive indices count from the
bottom (1 = first pushed), negative from the top (-1 = top).  An index
outside the stack reads as nil (the C would see `LUA_TNONE`; no embedded
call site distinguishes the two). -/
def stackGet (stk : List LuaValue) (n : Int) : LuaValue :=
  if n < 0 then stk.getD ((-n).toNat - 1) .nil
  else if 0 < n ∧ n.toNat ≤ stk.length then stk.getD (stk.length - n.toNat) .nil
  else .nil

/-- Look a handle up in the registry; absent handles read as nil. -/
def regLookup (reg : List (Int × LuaValue)) (r : Int) : LuaValue :=
  (reg.lookup r).getD .nil

/-- Model of `lua_rawgeti(L, LUA_REGISTRYINDEX, r)`. -/
def rawgeti (st : St) (r : Int) : St :=
  push st (regLookup st.registry r)

/-- Model of `luaL_ref(L, LUA_REGISTRYINDEX)`: pop the top value and
store it under a fresh handle; a nil value is popped and `LUA_REFNIL`
returned without storing. -/
def luaL_ref (st : St) : St × Int :=
  let v := top st
  let st1 := pop1 st
  if v = .nil then (st1, LUA_REFNIL)
  else
    let r := st.nextRef
    ({ st1 with registry := (r, v) :: st1.registry, nextRef := r + 1 }, r)

/-- Model of `lua_rawseti(L, LUA_REGISTRYINDEX, r)`: pop the top value
and store it under handle `r` (storing nil clears the slot). -/
def lua_rawseti (st : St) (r : Int) : St :=
  let v := top st
  let st1 := pop1 st
  if v = .nil then { st1 with registry := st1.registry.filter (fun p => p.1 ≠ r) }
  else { st1 with registry := (r, v) :: st1.registry.filter (fun p => p.1 ≠ r) }

/-- Model of `luaL_unref(L, LUA_REGISTRYINDEX, r)`: release handle `r`;
negative pseudo-handles (`LUA_NOREF`, `LUA_REFNIL`) are ignored. -/
def luaL_unref (st : St) (r : Int) : St :=
  if 0 ≤ r then { st with registry := st.registry.filter (fun p => p.1 ≠ r) } else st

/-- Model of `lua_pushvalue(L, n)`. -/
def lua_pushvalue (st : St) (n : Int) : St :=
  push st (stackGet st.stack n)

/-- Look a table id up in the table heap. -/
def lookupTable (st : St) (tid : Nat) : List (LuaValue × LuaValue) :=
  (st.tables.lookup tid).getD []

/-- Raw table read used by `lua_gettable` on metatable-free tables. -/
def tableGet (entries : List (LuaValue × LuaValue)) (k : LuaValue) : LuaValue :=
  match entries.find? (fun p => p.1 = k) with
  | some p => p.2
  | .none => .nil

/-- Raw table write: replace the binding of `k` in place, append it when
absent, and remove it when the new value is nil (Lua semantics). -/
def setEntry (entries : List (LuaValue × LuaValue)) (k v : LuaValue) :
    List (LuaValue × LuaValue) :=
  match entries with
  | [] => if v = .nil then [] else [(k, v)]
  | (k0, v0) :: rest =>
      if k0 = k then (if v = .nil then rest else (k, v) :: rest)
      else (k0, v0) :: setEntry rest k v

/-- Replace the contents of table `tid` in the heap. -/
def tablesUpdate (tbls : List (Nat × List (LuaValue × LuaValue))) (tid : Nat)
    (entries : List (LuaValue × LuaValue)) : List (Nat × List (LuaValue × LuaValue)) :=
  (tid, entries) :: tbls.filter (fun p => p.1 ≠ tid)

/-- The C string `lua_tostring` yields for a stack slot: strings convert
to themselves, numbers to their decimal form, everything else to NULL
(modelled as the empty string; no embedded call site reaches that case
with a non-string). -/
def luaToStr : LuaValue → String
  | .str s => s
  | .number q => toString q
  | _ => ""

/-- The array length `lua_objlen` reports: for a string its byte length,
for a table its border (the number of consecutive integer keys starting
at 1 that are present), 0 for everything else (in particular nil). -/
def tableArrayLen (entries : List (LuaValue × LuaValue)) : Nat :=
  go entries.length 0
where
  go : Nat → Nat → Nat
    | 0, i => i
    | fuel + 1, i =>
        match entries.find? (fun p => p.1 = LuaValue.number ((i + 1 : ℕ) : ℚ)) with
        | some _ => go fuel (i + 1)
        | .none => i

/-- Model of `lua_objlen(L, n)`. -/
def lua_objlen (st : St) (n : Int) : Nat :=
  match stackGet st.stack n with
  | .str s => s.length
  | .table tid => tableArrayLen (lookupTable st tid)
  | _ => 0

/-- Model of the `TRY { body } CATCH { ... } ENDTRY` macro pair of
`luainpython.c`: save the installed panic handler, install `py_lua_panic`
(the `setjmp`/`longjmp` target), run the body, and restore the saved
handler on the way out of both the success branch and the panic branch.
A body result of `Except.error m` is a Lua fatal error: the installed
handler `py_lua_panic` sets a Python `RuntimeError` carrying the Lua
error message and longjmps to the `CATCH` branch (result `none`). -/
def TRY_ENDTRY {α : Type} (st : St) (body : St → St × Except String α) : St × Option α :=
  let old := st.panic
  let st1 := { st with panic := pyLuaPanicId }
  match body st1 with
  | (st2, .ok a) => ({ st2 with panic := old }, some a)
  | (st2, .error m) => ({ pyErrSet st2 .runtimeError m with panic := old }, none)

/-- Model of `lua_gettable(L, idx)` on the metatable-free tables of the
embedding: with the key on top of the stack and the table at `idx`, pop
the key and push `t[k]`; indexing a non-table raises a Lua error. -/
def lua_gettable (st : St) (idx : Int) : St × Except String Unit :=
  let k := top st
  match stackGet st.stack idx with
  | .table tid => (push (pop1 st) (tableGet (lookupTable st tid) k), .ok ())
  | _ => (st, .error "attempt to index a non-table value")

/-- Model of `lua_settable(L, idx)` on the metatable-free tables of the
embedding: with the value on top, the key below it and the table at
`idx`, pop both and store `t[k] = v`; writing to a non-table or using a
nil key raises a Lua error. -/
def lua_settable (st : St) (idx : Int) : St × Except String Unit :=
  let v := top st
  let k := stackGet st.stack (-2)
  match stackGet st.stack idx with
  | .table tid =>
      if k = .nil then (st, .error "table index is nil")
      else
        let entries := lookupTable st tid
        ({ pop1 (pop1 st) with tables := tablesUpdate st.tables tid (setEntry entries k v) },
         .ok ())
  | _ => (st, .error "attempt to index a non-table value")

/-- The key/value pair `lua_next` produces after key `k` in `entries`:
`none` when the traversal is exhausted; an invalid key (present in
neither the list nor nil) raises a Lua error. -/
def nextEntry (entries : List (LuaValue × LuaValue)) (k : LuaValue) :
    Except String (Option (LuaValue × LuaValue)) :=
  if k = .nil then .ok entries.head?
  else
    match entries.findIdx? (fun p => p.1 = k) with
    | some i => .ok (entries.get? (i + 1))
    | .none => .error "invalid key to next"

/-- Model of `lua_next(L, idx)`: pop the key on top, and either push the
next key/value pair of the table at `idx` (returning true) or push
nothing when the traversal is done (returning false). -/
def lua_next (st : St) (idx : Int) : St × Except String Bool :=
  let k := top st
  match stackGet st.stack idx with
  | .table tid =>
      match nextEntry (lookupTable st tid) k with
      | .ok (some (k2, v2)) => (push (push (pop1 st) k2) v2, .ok true)
      | .ok .none => (pop1 st, .ok false)
      | .error m => (st, .error m)
  | _ => (st, .error "attempt to iterate a non-table value")

/-- Guest-call semantics: what the Lua function being called does with
its arguments.  `lua_pcall` runs arbitrary external Lua code, so the
embedding is parametrised by it. -/
inductive GuestResult where
  | ok (rets : List LuaValue)
  | fail (msg : String)

/-- A guest callee: from the called value and the bottom-to-top argument
list to the call outcome. -/
abbrev GuestFn : Type := LuaValue → List LuaValue → GuestResult

/-- Model of `lua_pcall(L, nargs, nres, 0)`: pop the callee and `nargs`
arguments; on success push the results (all of them when `nres` is
`none`, i.e. `LUA_MULTRET`, otherwise exactly `nres` padding with nil)
and return true; on failure push the error message and return false. -/
def lua_pcall (f : GuestFn) (st : St) (nargs : Nat) (nres : Option Nat) : St × Bool :=
  let callee := st.stack.getD nargs .nil
  let args := (st.stack.take nargs).reverse
  let rest := st.stack.drop (nargs + 1)
  match f callee args with
  | .ok rets =>
      let rets1 :=
        match nres with
        | .none => rets
        | some k => rets.take k ++ List.replicate (k - rets.length) LuaValue.nil
      ({ st with stack := rets1.reverse ++ rest }, true)
  | .fail m => ({ st with stack := .str m :: rest }, false)

/-- Wrap a Host object as an opaque Guest userdata carrying it. -/
def wrapHost (st : St) (o : PyValue) : St × Bool :=
  let id := st.nextHost
  (push { st with hostObjs := (id, o) :: st.hostObjs, nextHost := id + 1 }
    (.userdata (some id)), true)

/-- Modelled from the spec: `py_convert`, the Host-to-Guest half of the
Value Converter, lives in `pythoninlua.c`, which is not among the sources
here; only its callers are.  Spec section 4.1 (`to_guest`): Host "none"
becomes Guest nil only when `withnone` is set and is rejected otherwise;
bool, int, float and string map to the corresponding Guest primitives; a
Foreign Object Proxy pushes its wrapped Guest value back by dereferencing
its registry handle; any other Host object is wrapped as an opaque Guest
userdata carrying a reference to the Host object.  Success pushes exactly
one Guest value and returns true; failure pushes nothing. -/
def py_convert (st : St) (o : PyValue) (withnone : Bool) : St × Bool :=
  match o with
  | .none => if withnone then (push st .nil, true) else (st, false)
  | .bool b => (push st (.boolean b), true)
  | .int z => (push st (.number (z : ℚ)), true)
  | .float q => (push st (.number q), true)
  | .str s => (push st (.str s), true)
  | .luaObject r _ => (rawgeti st r, true)
  | .tuple xs => wrapHost st (.tuple xs)
  | .hostObj i => wrapHost st (.hostObj i)

/-- Embedding of `e_py_convert`: run `py_convert` under the protected
boundary, treating a panic as failure, and set a `RuntimeError` when the
conversion did not succeed. -/
def e_py_convert (st : St) (o : PyValue) (withnone : Bool) : St × Bool :=
  let res := TRY_ENDTRY st (fun s =>
    let (s1, r) := py_convert s o withnone
    (s1, Except.ok r))
  let r := res.2.getD false
  if r then (res.1, true)
  else (pyErrSet res.1 .runtimeError "can\x27t convert", false)

/-- Truncation toward zero, the C cast `(long)num` applied to a
`lua_Number` (ignoring overflow, as the source does). -/
def ratTrunc (q : ℚ) : ℤ := if q < 0 then ⌈q⌉ else ⌊q⌋

mutual

/-- Embedding of `LuaConvert`, the Guest-to-Host half of the Value
Converter: nil to Host none; string, number and boolean to the Host
primitives, a number becoming a Host int when it equals its own
truncation and otherwise a Host float — built, exactly as in the source,
by `PyFloat_FromDouble(n)` from the stack index `n`, not from `num`; a
userdata recognized as a wrapped Host object yields that Host object
itself; every other value becomes a new Foreign Object Proxy.  A `none`
result is a NULL `PyObject*` (Host allocation failure). -/
def LuaConvert (st : St) (n : Int) : St × Option PyValue :=
  match stackGet st.stack n with
  | .nil => (st, some .none)
  | .str s =>
      let (st1, ok) := allocTick st
      (st1, if ok then some (.str s) else .none)
  | .number num =>
      if num ≠ ((ratTrunc num : ℤ) : ℚ) then
        let (st1, ok) := allocTick st
        (st1, if ok then some (.float ((n : ℤ) : ℚ)) else .none)
      else
        let (st1, ok) := allocTick st
        (st1, if ok then some (.int (ratTrunc num)) else .none)
  | .boolean b => (st, some (.bool b))
  | .userdata host =>
      match host.bind (fun i => st.hostObjs.lookup i) with
      | some o => (st, some o)
      | .none => LuaObject_New st n
  | _ => LuaObject_New st n

/-- Embedding of `LuaObject_New`: allocate a proxy object, push a copy of
the wrapped stack slot and register it under a fresh durable handle; the
iteration handle starts out as `LUA_NOREF`. -/
def LuaObject_New (st : St) (n : Int) : St × Option PyValue :=
  let (st1, ok) := allocTick st
  if ok then
    let st2 := lua_pushvalue st1 n
    let (st3, r) := luaL_ref st2
    (st3, some (.luaObject r LUA_NOREF))
  else (st1, .none)

end

/-- Model of `lua_istable(L, n)` restricted to a value already read off
the stack. -/
def lua_istable : LuaValue → Bool
  | .table _ => true
  | _ => false

/-- The argument-marshalling loop of `LuaCall`: convert each tuple item
with `e_py_convert(…, 0)`; on the first failure set a `TypeError` naming
the item's position, reset the stack and report that position. -/
def pushArgs (st : St) (args : List PyValue) (i : Nat) : St × Option Nat :=
  match args with
  | [] => (st, .none)
  | a :: rest =>
      let (st1, rc) := e_py_convert st a false
      if rc then pushArgs st1 rest (i + 1)
      else (settop0 (pyErrSet st1 .typeError ("failed to convert argument #" ++ toString i)),
            some i)

/-- The result-collection loop of `LuaCall` for the multi-result case:
convert stack slots `i+1 … i+k`; on the first failure set a `TypeError`
naming the result's position and reset the stack. -/
def convertResults (st : St) (k : Nat) (i : Nat) : St × Option (List PyValue) :=
  match k with
  | 0 => (st, some [])
  | k' + 1 =>
      let (st1, a) := LuaConvert st (Int.ofNat (i + 1))
      match a with
      | .none =>
          (settop0 (pyErrSet st1 .typeError ("failed to convert return #" ++ toString i)),
           .none)
      | some v =>
          match convertResults st1 k' (i + 1) with
          | (st2, some vs) => (st2, some (v :: vs))
          | (st2, .none) => (st2, .none)

/-- Embedding of `LuaCall`, the Guest Call Bridge: with the callee
already on the stack, push every Host argument (aborting on a conversion
failure), run the protected call asking for all results
(`LUA_MULTRET`), then marshal the results back: none yields Host "none",
exactly one yields that value converted, several yield a Host tuple.
The protected-call-failure path raises a Host exception carrying the Lua
error message and returns with the stack as `lua_pcall` left it. -/
def LuaCall (f : GuestFn) (st : St) (args : List PyValue) : St × Option PyValue :=
  let nargs := args.length
  match pushArgs st args 0 with
  | (st1, some _) => (st1, .none)
  | (st1, .none) =>
      let (st2, okc) := lua_pcall f st1 nargs .none
      if okc then
        let n := st2.stack.length
        if n == 1 then
          let (st3, ret) := LuaConvert st2 1
          match ret with
          | .none =>
              (pyDecref .none (settop0 (pyErrSet st3 .typeError "failed to convert return")),
               .none)
          | some v => (settop0 st3, some v)
        else if n > 1 then
          let (st3, okT) := allocTick st2
          if okT then
            match convertResults st3 n 0 with
            | (st4, some vs) => (settop0 st4, some (.tuple vs))
            | (st4, .none) => (st4, .none)
          else (settop0 (pyErrSet st3 .runtimeError "failed to create return tuple"), .none)
        else (settop0 st2, some .none)
      else (pyErrSet st2 .exceptionError ("error: " ++ luaToStr (top st2)), .none)

/-- Embedding of `LuaObject_getattr` (also `LuaObject_subscript`): push
the wrapped value, validate it is not nil ("lost reference"), convert
the key, do the table read under the protected boundary, convert the
result; the stack is reset on every exit through the `error` label. -/
def LuaObject_getattr (st0 : St) (ref : Int) (attr : PyValue) : St × Option PyValue :=
  let st := rawgeti st0 ref
  if top st = .nil then
    (settop0 (pyErrSet st .runtimeError "lost reference"), .none)
  else
    let (st1, rc) := e_py_convert st attr false
    if rc then
      match TRY_ENDTRY st1 (fun s => lua_gettable s (-2)) with
      | (st2, some _) =>
          let (st3, ret) := LuaConvert st2 (-1)
          (settop0 st3, ret)
      | (st2, .none) => (settop0 st2, .none)
    else (settop0 (pyErrSet st1 .valueError "can\x27t convert attr/key"), .none)

/-- Embedding of `LuaObject_setattr` (also `LuaObject_ass_subscript`):
push the wrapped value, validate it is not nil ("lost reference"),
require it to be a table, convert key and value, do the table write
under the protected boundary; returns 0 on success and -1 on failure,
resetting the stack on every exit. -/
def LuaObject_setattr (st0 : St) (ref : Int) (attr value : PyValue) : St × Int :=
  let st := rawgeti st0 ref
  if top st = .nil then
    (settop0 (pyErrSet st .runtimeError "lost reference"), -1)
  else if !(lua_istable (top st)) then
    (settop0 (pyErrSet st .typeError "Lua object is not a table"), -1)
  else
    let (st1, rc) := e_py_convert st attr false
    if rc then
      let (st2, rc2) := e_py_convert st1 value false
      if rc2 then
        match TRY_ENDTRY st2 (fun s => lua_settable s (-3)) with
        | (st3, some _) => (settop0 st3, 0)
        | (st3, .none) => (settop0 st3, -1)
      else (settop0 (pyErrSet st2 .valueError "can\x27t convert value"), -1)
    else (settop0 (pyErrSet st1 .valueError "can\x27t convert key/attr"), -1)

/-- Embedding of `LuaObject_length`: push the wrapped value (with no
nil-validation in the source), query `lua_objlen` on it and reset the
stack. -/
def LuaObject_length (st0 : St) (ref : Int) : St × Nat :=
  let st := rawgeti st0 ref
  let len := lua_objlen st (-1)
  (settop0 st, len)

/-- Embedding of `LuaObject_call`: reset the stack, push the wrapped
value (with no nil-validation in the source) and delegate to the Guest
Call Bridge. -/
def LuaObject_call (f : GuestFn) (st : St) (ref : Int) (args : List PyValue) :
    St × Option PyValue :=
  LuaCall f (rawgeti (settop0 st) ref) args

/-- Embedding of `LuaObject_iternext`: push the wrapped value (with no
nil-validation in the source) and the saved cursor key (nil on the first
call), run `lua_next` under the protected boundary; on success pop the
value component, convert the key component as the Host result, and save
the key as the new cursor, allocating a registry handle for it the first
time and overwriting it afterwards; on exhaustion release the cursor
handle.  Returns the new `refiter` alongside; the stack is never reset
here. -/
def LuaObject_iternext (st0 : St) (ref refiter : Int) : St × Option PyValue × Int :=
  let st := rawgeti st0 ref
  let st1 := if refiter = LUA_NOREF then push st .nil else rawgeti st refiter
  let next := TRY_ENDTRY st1 (fun s => lua_next s (-2))
  let st2 := next.1
  let r := next.2.getD false
  if r then
    let st3 := pop1 st2
    let (st4, ret) := LuaConvert st3 (-1)
    if refiter = LUA_NOREF then
      let (st5, newref) := luaL_ref st4
      (st5, ret, newref)
    else
      (lua_rawseti st4 refiter, ret, refiter)
  else
    if refiter ≠ LUA_NOREF then (luaL_unref st2 refiter, .none, LUA_NOREF)
    else (st2, .none, refiter)

/-- Embedding of `LuaState_run` (the body of `execute` and `eval`): for
`eval`, prefix the source text with "return "; compile the buffer
(failures raise `RuntimeError` "error loading code"), run it under
`lua_pcall` requesting exactly 1 result (failures raise `RuntimeError`
"error executing code"), convert the single result, and reset the stack
on every path.  The compiler is external (`luaL_loadbuffer`), so it is a
parameter. -/
def LuaState_run (compile : String → Except String LuaValue) (f : GuestFn)
    (st : St) (s : String) (evalFlag : Bool) : St × Option PyValue :=
  let buf := if evalFlag then "return " ++ s else s
  match compile buf with
  | .error m => (settop0 (pyErrSet st .runtimeError ("error loading code: " ++ m)), .none)
  | .ok chunk =>
      let st1 := push st chunk
      let (st2, okc) := lua_pcall f st1 0 (some 1)
      if okc then
        let (st3, ret) := LuaConvert st2 (-1)
        (settop0 st3, ret)
      else
        (settop0 (pyErrSet st2 .runtimeError ("error executing code: " ++ luaToStr (top st2))),
         .none)

/-- The Host-to-Guest-to-Host round trip of the testable-properties
section of the spec: push `v` with the (spec-modelled) `to_guest` half on
a fresh empty stack, read it back with the embedded `LuaConvert` at
stack index 1. -/
def roundTrip (v : PyValue) : Option PyValue :=
  let st := mkSt [] [] [] allocAll
  let (st1, r) := py_convert st v false
  if r then (LuaConvert st1 1).2 else .none

/-- Host values whose Guest conversion is a primitive push (the
{bool,int,float,str} set of the spec). -/
def isPrimPy : PyValue → Bool
  | .bool _ => true
  | .int _ => true
  | .float _ => true
  | .str _ => true
  | _ => false

/-- The Guest primitive a primitive Host value converts to. -/
def guestOfPrim : PyValue → LuaValue
  | .bool b => .boolean b
  | .int z => .number (z : ℚ)
  | .float q => .number q
  | .str s => .str s
  | _ => .nil

/-- Guest values whose Host conversion is allocation-only and does not
depend on the stack position: booleans, strings and integral numbers
(nil excluded, since nil is also the absent-key signal). -/
def isSimpleKey : LuaValue → Bool
  | .boolean _ => true
  | .str _ => true
  | .number q => decide (q = ((ratTrunc q : ℤ) : ℚ))
  | _ => false

/-- The Host value such a simple Guest value converts to. -/
def pyOfSimple : LuaValue → PyValue
  | .boolean b => .bool b
  | .str s => .str s
  | .number q => .int (ratTrunc q)
  | _ => .none

/-! Theorems.  Each claim of the specification is settled by exactly one
named theorem below; shared helper lemmas precede them. -/

/-- C1: the round trip of primitive Host values through the Value
Converter.  Booleans, ints, strings and integral floats come back
observably equal (2.0 comes back as the integer 2), but a float with a
fractional part does not: the source builds the Host float with
`PyFloat_FromDouble(n)` from the stack index `n` instead of from `num`,
so 2.5 (written `mkRat 5 2` here, shown equal to 5/2) comes back as the
float 1.0 (the value of stack index 1), not as 2.5 as the claim
states. -/
theorem C1_roundtrip_float_bug :
    roundTrip (PyValue.bool true) = some (PyValue.bool true) ∧
    roundTrip (PyValue.bool false) = some (PyValue.bool false) ∧
    roundTrip (PyValue.int 42) = some (PyValue.int 42) ∧
    roundTrip (PyValue.int (-3)) = some (PyValue.int (-3)) ∧
    roundTrip (PyValue.str "abc") = some (PyValue.str "abc") ∧
    roundTrip (PyValue.float 2) = some (PyValue.int 2) ∧
    mkRat 5 2 = (5 : ℚ)/2 ∧
    roundTrip (PyValue.float (mkRat 5 2)) = some (PyValue.float 1) ∧
    roundTrip (PyValue.float (mkRat 5 2)) ≠ some (PyValue.float (mkRat 5 2)) := by
  refine ⟨rfl, rfl, rfl, rfl, rfl, rfl, by norm_num [Rat.mkRat_eq_div], rfl, ?_⟩
  intro h
  rw [show roundTrip (PyValue.float (mkRat 5 2)) = some (PyValue.float 1) from rfl] at h
  have h2 : (1 : ℚ) = mkRat 5 2 := by injection Option.some.inj h
  exact absurd h2 (by decide)

/-- C10: in the single-result case of the Guest Call Bridge, when the
conversion of the sole result fails (a NULL from the Value Converter),
the source sets the type error and resets the stack as the claim says,
but then runs `Py_DECREF(ret)` with `ret == NULL` — the reference-count
decrement is applied to the null result value, which the Host API
forbids.  Here the first Host allocation fails, so converting the single
Lua number result yields NULL. -/
theorem C10_decref_null_bug :
    (LuaCall (fun _ _ => GuestResult.ok [LuaValue.number 5])
        (mkSt [LuaValue.func 0] [] [] (fun _ => false)) []).2 = none ∧
    (LuaCall (fun _ _ => GuestResult.ok [LuaValue.number 5])
        (mkSt [LuaValue.func 0] [] [] (fun _ => false)) []).1.err
      = some (ErrKind.typeError, "failed to convert return") ∧
    (LuaCall (fun _ _ => GuestResult.ok [LuaValue.number 5])
        (mkSt [LuaValue.func 0] [] [] (fun _ => false)) []).1.stack = [] ∧
    (LuaCall (fun _ _ => GuestResult.ok [LuaValue.number 5])
        (mkSt [LuaValue.func 0] [] [] (fun _ => false)) []).1.decrefNulls = 1 :=
  ⟨rfl, rfl, rfl, rfl⟩

/-- C8: the `TRY`/`CATCH`/`ENDTRY` boundary installs `py_lua_panic` for
the duration of the wrapped operation (second conjunct: a probe body
observes it as the installed handler) and restores the previously
installed handler before returning control, on the success path and on
the panic path alike (first conjunct, for every body; third conjunct,
for the always-panicking body). -/
theorem C8_panic_handler_restored {α : Type} (st : St)
    (body : St → St × Except String α) (m : String) :
    ((TRY_ENDTRY st body).1).panic = st.panic ∧
    (TRY_ENDTRY st (fun s => (s, Except.ok s.panic))).2 = some pyLuaPanicId ∧
    ((TRY_ENDTRY st (fun s => (s, (Except.error m : Except String Unit)))).1).panic
      = st.panic := by
  refine ⟨?_, rfl, rfl⟩
  simp only [TRY_ENDTRY]
  rcases body { st with panic := pyLuaPanicId } with ⟨st2, e⟩
  cases e <;> rfl

/-- C2, counterexample: the Guest value stack is not reset on every
return path.  First: a failing protected call inside the Guest Call
Bridge returns with the Lua error value still on the stack.  Second: the
iteration-next operation returns with the wrapped table (at least) still
on the stack even on a successful step. -/
theorem C2_counterexample :
    (LuaCall (fun _ _ => GuestResult.fail "boom")
        (mkSt [LuaValue.func 0] [] [] allocAll) []).1.stack = [LuaValue.str "boom"] ∧
    [LuaValue.str "boom"] ≠ ([] : List LuaValue) ∧
    (LuaObject_iternext
        (mkSt [] [(5, LuaValue.table 0)] [(0, [(LuaValue.str "k", LuaValue.str "v")])]
          allocAll) 5 LUA_NOREF).1.stack = [LuaValue.table 0] ∧
    [LuaValue.table 0] ≠ ([] : List LuaValue) := by
  exact ⟨rfl, by decide, rfl, by decide⟩

/-- C3, counterexample: a successful iteration step on a proxy over the
one-entry table `{k = "v"}` (entry key `"k"`, value `"v"`) returns the
converted key component `"k"` to the Host caller, not the value
component `"v"` as the claim states — the source pops the value
(`lua_pop(L, 1)`, comment "Remove value.") and converts what is then on
top, the key. -/
theorem C3_counterexample :
    (LuaObject_iternext
        (mkSt [] [(5, LuaValue.table 0)] [(0, [(LuaValue.str "k", LuaValue.str "v")])]
          allocAll) 5 LUA_NOREF).2.1 = some (PyValue.str "k") ∧
    (LuaObject_iternext
        (mkSt [] [(5, LuaValue.table 0)] [(0, [(LuaValue.str "k", LuaValue.str "v")])]
          allocAll) 5 LUA_NOREF).2.1 ≠ some (PyValue.str "v") := by
  refine ⟨rfl, ?_⟩
  intro h
  rw [show (LuaObject_iternext
        (mkSt [] [(5, LuaValue.table 0)] [(0, [(LuaValue.str "k", LuaValue.str "v")])]
          allocAll) 5 LUA_NOREF).2.1 = some (PyValue.str "k") from rfl] at h
  have h2 : "k" = "v" := by injection Option.some.inj h
  exact absurd h2 (by decide)

/-- C4, counterexample: the length operation does not validate the
dereferenced wrapped value.  On a proxy whose registry handle
dereferences to nil (handle 5 in an empty registry) it reports no "lost
reference" error — no error at all — and instead operates on the nil
value, returning `lua_objlen` of nil, which is 0. -/
theorem C4_counterexample :
    (LuaObject_length (mkSt [] [] [] allocAll) 5).2 = 0 ∧
    (LuaObject_length (mkSt [] [] [] allocAll) 5).1.err = none :=
  ⟨rfl, rfl⟩

/-- C7, counterexample: a proxy whose wrapped Guest value is nil (a lost
reference) is not a table, yet a set on it is rejected with a
RuntimeError "lost reference", not with the type error the claim
demands for every non-table wrapped value. -/
theorem C7_counterexample :
    (LuaObject_setattr (mkSt [] [] [] allocAll) 5 (PyValue.str "x") (PyValue.int 1)).2
      = -1 ∧
    (LuaObject_setattr (mkSt [] [] [] allocAll) 5 (PyValue.str "x") (PyValue.int 1)).1.err
      = some (ErrKind.runtimeError, "lost reference") ∧
    ErrKind.runtimeError ≠ ErrKind.typeError :=
  ⟨rfl, rfl, by decide⟩

/-- Helper: when the argument-marshalling loop fails it has reset the
Guest stack. -/
theorem pushArgs_fail_stack (args : List PyValue) :
    ∀ (st : St) (i j : Nat), (pushArgs st args i).2 = some j → (pushArgs st args i).1.stack = [] := by
  induction args with
  | nil => intro st i j h; simp [pushArgs] at h
  | cons a rest ih =>
      intro st i j h
      simp only [pushArgs] at h ⊢
      rcases hc : e_py_convert st a false with ⟨st1, rc⟩
      rw [hc] at h
      dsimp only at h ⊢
      cases rc
      · simp [settop0]
      · rw [if_pos rfl] at h ⊢
        exact ih st1 (i+1) j h

/-- Helper: when the result-collection loop fails it has reset the Guest
stack. -/
theorem convertResults_none_stack (k : Nat) :
    ∀ (st : St) (i : Nat), (convertResults st k i).2 = none → (convertResults st k i).1.stack = [] := by
  induction k with
  | zero => intro st i h; simp [convertResults] at h
  | succ k ih =>
      intro st i h
      simp only [convertResults] at h ⊢
      rcases hc : LuaConvert st (Int.ofNat (i+1)) with ⟨st1, a⟩
      rw [hc] at h
      dsimp only at h ⊢
      cases a with
      | none => simp [settop0]
      | some v =>
          rcases hr : convertResults st1 k (i+1) with ⟨st2, vs⟩
          rw [hr] at h
          dsimp only at h ⊢
          cases vs with
          | none =>
              have h2 := ih st1 (i+1)
              rw [hr] at h2
              exact h2 rfl
          | some vs2 => simp at h

/-- C2, amended: attribute/key get, attribute/key set, length and
execute/evaluate reset the Guest value stack to empty on every return
path, and the Guest Call Bridge (directly or through the proxy call
operation) resets it on the success path and on every conversion-failure
path; but the bridge's protected-call-failure path returns with the Lua
error value still on the stack, and the iteration next operation returns
without resetting the stack at all (see the counterexample).  The bridge
conjuncts quantify over every succeeding guest callee; the failing ones
are exactly the excluded protected-call-failure path. -/
theorem C2_stack_reset_amended :
    (∀ st ref attr, (LuaObject_getattr st ref attr).1.stack = []) ∧
    (∀ st ref attr value, (LuaObject_setattr st ref attr value).1.stack = []) ∧
    (∀ st ref, (LuaObject_length st ref).1.stack = []) ∧
    (∀ compile f st s evalFlag, (LuaState_run compile f st s evalFlag).1.stack = []) ∧
    (∀ st args rets, (LuaCall (fun _ _ => GuestResult.ok rets) st args).1.stack = []) ∧
    (∀ st ref args rets,
      (LuaObject_call (fun _ _ => GuestResult.ok rets) st ref args).1.stack = []) := by
  have hcall : ∀ st args rets, (LuaCall (fun _ _ => GuestResult.ok rets) st args).1.stack = [] := by
    intro st args rets
    simp only [LuaCall]
    rcases hp : pushArgs st args 0 with ⟨st1, io⟩
    cases io with
    | some j =>
        have h2 := pushArgs_fail_stack args st 0 j (by rw [hp])
        rw [hp] at h2
        exact h2
    | none =>
        dsimp only [lua_pcall]
        rw [if_pos rfl]
        split
        · rcases hc : LuaConvert _ 1 with ⟨st3, ret⟩
          cases ret with
          | none => simp [pyDecref, settop0]
          | some v => rfl
        · split
          · dsimp only [allocTick]
            split
            · rcases hcv : convertResults _ _ 0 with ⟨st4, vs⟩
              cases vs with
              | none =>
                  have h2 := convertResults_none_stack _ _ 0 (by rw [hcv])
                  rw [hcv] at h2
                  exact h2
              | some vs2 => rfl
            · rfl
          · rfl
  refine ⟨?_, ?_, ?_, ?_, hcall, ?_⟩
  · intro st ref attr
    unfold LuaObject_getattr
    dsimp only
    (repeat' split) <;> rfl
  · intro st ref attr value
    unfold LuaObject_setattr
    dsimp only
    (repeat' split) <;> rfl
  · intro st ref
    rfl
  · intro compile f st s evalFlag
    unfold LuaState_run
    dsimp only
    (repeat' split) <;> rfl
  · intro st ref args rets
    unfold LuaObject_call
    exact hcall _ _ _

/-- C4, amended: after dereferencing the registry handle, only the
attribute/key get and set operations validate that the pushed wrapped
value is not nil and report the "lost reference" error; the call, length
and iteration-next operations (and likewise string conversion in the
source) perform no such check and operate on the nil value — length
reports the Guest length of nil, 0, with the error indicator untouched,
iteration next fails with the iterate-a-non-table error of the
protected `lua_next`, not with "lost reference", and call hands the nil
value straight to the Guest Call Bridge as the callee, so a dead proxy
surfaces the Guest call error, not "lost reference". -/
theorem C4_lost_reference_amended (st : St) (ref : Int) (attr value : PyValue)
    (h : regLookup st.registry ref = LuaValue.nil) :
    (LuaObject_getattr st ref attr).2 = none ∧
    (LuaObject_getattr st ref attr).1.err = some (ErrKind.runtimeError, "lost reference") ∧
    (LuaObject_setattr st ref attr value).2 = -1 ∧
    (LuaObject_setattr st ref attr value).1.err = some (ErrKind.runtimeError, "lost reference") ∧
    (LuaObject_setattr st ref attr value).1.tables = st.tables ∧
    (LuaObject_length st ref).2 = 0 ∧
    (LuaObject_length st ref).1.err = st.err ∧
    (LuaObject_iternext st ref LUA_NOREF).2.1 = none ∧
    (LuaObject_iternext st ref LUA_NOREF).1.err ≠ some (ErrKind.runtimeError, "lost reference") ∧
    (∀ (f : GuestFn) (args : List PyValue),
      LuaObject_call f st ref args = LuaCall f (push (settop0 st) LuaValue.nil) args) ∧
    (LuaObject_call (fun _ _ => GuestResult.fail "attempt to call a nil value") st ref []).2
      = none ∧
    (LuaObject_call (fun _ _ => GuestResult.fail "attempt to call a nil value") st ref []).1.err
      = some (ErrKind.exceptionError, "error: attempt to call a nil value") := by
  have hrw : rawgeti st ref = push st LuaValue.nil := by
    unfold rawgeti; rw [h]
  have hg : LuaObject_getattr st ref attr
      = (settop0 (pyErrSet (push st LuaValue.nil) .runtimeError "lost reference"), none) := by
    unfold LuaObject_getattr; rw [hrw]; rfl
  have hs : LuaObject_setattr st ref attr value
      = (settop0 (pyErrSet (push st LuaValue.nil) .runtimeError "lost reference"), -1) := by
    unfold LuaObject_setattr; rw [hrw]; rfl
  have hl : LuaObject_length st ref = (settop0 (push st LuaValue.nil), 0) := by
    unfold LuaObject_length; rw [hrw]; rfl
  have hi : (LuaObject_iternext st ref LUA_NOREF).2.1 = none := by
    unfold LuaObject_iternext; rw [hrw]; rfl
  have hi2 : (LuaObject_iternext st ref LUA_NOREF).1.err
      = some (ErrKind.runtimeError, "attempt to iterate a non-table value") := by
    unfold LuaObject_iternext; rw [hrw]; rfl
  have hcall : ∀ (f : GuestFn) (args : List PyValue),
      LuaObject_call f st ref args = LuaCall f (push (settop0 st) LuaValue.nil) args := by
    intro f args
    unfold LuaObject_call
    rw [show rawgeti (settop0 st) ref = push (settop0 st) LuaValue.nil from by
      unfold rawgeti
      rw [show regLookup (settop0 st).registry ref = LuaValue.nil from h]]
  have hcf : LuaObject_call (fun _ _ => GuestResult.fail "attempt to call a nil value") st ref []
      = (pyErrSet { st with stack := [LuaValue.str "attempt to call a nil value"] }
           ErrKind.exceptionError "error: attempt to call a nil value", none) := by
    rw [hcall]
    rfl
  refine ⟨by rw [hg], by rw [hg]; rfl, by rw [hs], by rw [hs]; rfl, by rw [hs]; rfl,
    by rw [hl], by rw [hl]; rfl, hi, by rw [hi2]; decide, hcall,
    by rw [hcf], by rw [hcf]; rfl⟩

/-- Witness for C4: a fresh state with an empty registry, handle 5,
string key and integer value satisfy the hypothesis and the conclusions. -/
theorem C4_lost_reference_amended_witness :
    regLookup (mkSt [] [] [] allocAll).registry 5 = LuaValue.nil ∧
    ((LuaObject_getattr (mkSt [] [] [] allocAll) 5 (PyValue.str "x")).2 = none ∧
     (LuaObject_getattr (mkSt [] [] [] allocAll) 5 (PyValue.str "x")).1.err
       = some (ErrKind.runtimeError, "lost reference") ∧
     (LuaObject_setattr (mkSt [] [] [] allocAll) 5 (PyValue.str "x") (PyValue.int 1)).2 = -1 ∧
     (LuaObject_setattr (mkSt [] [] [] allocAll) 5 (PyValue.str "x") (PyValue.int 1)).1.err
       = some (ErrKind.runtimeError, "lost reference") ∧
     (LuaObject_setattr (mkSt [] [] [] allocAll) 5 (PyValue.str "x") (PyValue.int 1)).1.tables
       = (mkSt [] [] [] allocAll).tables ∧
     (LuaObject_length (mkSt [] [] [] allocAll) 5).2 = 0 ∧
     (LuaObject_length (mkSt [] [] [] allocAll) 5).1.err = (mkSt [] [] [] allocAll).err ∧
     (LuaObject_iternext (mkSt [] [] [] allocAll) 5 LUA_NOREF).2.1 = none ∧
     (LuaObject_iternext (mkSt [] [] [] allocAll) 5 LUA_NOREF).1.err
       ≠ some (ErrKind.runtimeError, "lost reference") ∧
     (∀ (f : GuestFn) (args : List PyValue),
       LuaObject_call f (mkSt [] [] [] allocAll) 5 args
         = LuaCall f (push (settop0 (mkSt [] [] [] allocAll)) LuaValue.nil) args) ∧
     (LuaObject_call (fun _ _ => GuestResult.fail "attempt to call a nil value")
        (mkSt [] [] [] allocAll) 5 []).2 = none ∧
     (LuaObject_call (fun _ _ => GuestResult.fail "attempt to call a nil value")
        (mkSt [] [] [] allocAll) 5 []).1.err
       = some (ErrKind.exceptionError, "error: attempt to call a nil value")) :=
  ⟨rfl, C4_lost_reference_amended (mkSt [] [] [] allocAll) 5 (PyValue.str "x") (PyValue.int 1) rfl⟩

/-- Helper: reading the top stack slot by negative index. -/
theorem stackGet_neg1 (a : LuaValue) (l : List LuaValue) : stackGet (a :: l) (-1) = a := rfl

/-- Helper: reading one below the top by negative index. -/
theorem stackGet_neg2 (a b : LuaValue) (l : List LuaValue) :
    stackGet (a :: b :: l) (-2) = b := rfl

/-- Helper: reading two below the top by negative index. -/
theorem stackGet_neg3 (a b c : LuaValue) (l : List LuaValue) :
    stackGet (a :: b :: c :: l) (-3) = c := rfl

/-- Helper: converting a primitive Host value to the Guest always
succeeds and pushes exactly the corresponding Guest primitive. -/
theorem e_py_convert_prim (st : St) (o : PyValue) (ho : isPrimPy o = true) :
    e_py_convert st o false = (push st (guestOfPrim o), true) := by
  cases o <;> first | rfl | exact Bool.noConfusion ho

/-- Helper: the Guest image of a primitive Host value is never nil. -/
theorem guestOfPrim_ne_nil (o : PyValue) (ho : isPrimPy o = true) :
    guestOfPrim o ≠ LuaValue.nil := by
  cases o <;> first | exact fun h => LuaValue.noConfusion h | exact Bool.noConfusion ho

/-- C7, amended: the set operation requires the wrapped Guest value to
be a table among live (non-nil) wrapped values: a live non-table is
rejected with the type error "Lua object is not a table" and nothing is
written, while a nil wrapped value is rejected earlier with the
RuntimeError "lost reference" (see the counterexample); for a table,
the key and value are converted and the set is performed under the
protected boundary, returning success with the table updated and the
stack reset. -/
theorem C7_setattr_amended (st1 st2 : St) (ref1 ref2 : Int) (w : LuaValue)
    (tid : Nat) (k v : PyValue)
    (hk : isPrimPy k = true) (hv : isPrimPy v = true)
    (h1 : regLookup st1.registry ref1 = w) (h2 : w ≠ LuaValue.nil)
    (h3 : lua_istable w = false)
    (h4 : regLookup st2.registry ref2 = LuaValue.table tid) :
    (LuaObject_setattr st1 ref1 k v).2 = -1 ∧
    (LuaObject_setattr st1 ref1 k v).1.err
      = some (ErrKind.typeError, "Lua object is not a table") ∧
    (LuaObject_setattr st1 ref1 k v).1.tables = st1.tables ∧
    (LuaObject_setattr st2 ref2 k v).2 = 0 ∧
    (LuaObject_setattr st2 ref2 k v).1.tables
      = tablesUpdate st2.tables tid
          (setEntry (lookupTable st2 tid) (guestOfPrim k) (guestOfPrim v)) ∧
    (LuaObject_setattr st2 ref2 k v).1.stack = [] := by
  have hrw1 : rawgeti st1 ref1 = push st1 w := by unfold rawgeti; rw [h1]
  have hrw2 : rawgeti st2 ref2 = push st2 (LuaValue.table tid) := by unfold rawgeti; rw [h4]
  have hfull1 : LuaObject_setattr st1 ref1 k v
      = (settop0 (pyErrSet (push st1 w) .typeError "Lua object is not a table"), -1) := by
    unfold LuaObject_setattr
    rw [hrw1]
    dsimp only
    simp only [top, push, List.headD_cons]
    rw [if_neg h2, h3]
    rfl
  have hfull2 : (LuaObject_setattr st2 ref2 k v).2 = 0 ∧
      (LuaObject_setattr st2 ref2 k v).1.tables
        = tablesUpdate st2.tables tid
            (setEntry (lookupTable st2 tid) (guestOfPrim k) (guestOfPrim v)) ∧
      (LuaObject_setattr st2 ref2 k v).1.stack = [] := by
    unfold LuaObject_setattr
    rw [hrw2]
    dsimp only
    rw [e_py_convert_prim _ k hk]
    dsimp only
    rw [e_py_convert_prim _ v hv]
    dsimp only
    unfold TRY_ENDTRY lua_settable
    dsimp only [push]
    simp only [stackGet_neg2, stackGet_neg3]
    simp only [if_neg (guestOfPrim_ne_nil k hk)]
    exact ⟨rfl, rfl, rfl⟩
  exact ⟨by rw [hfull1], by rw [hfull1]; rfl, by rw [hfull1]; rfl,
    hfull2.1, hfull2.2.1, hfull2.2.2⟩

/-- Witness for C7: a proxy over the Lua number 3 (live, not a table)
rejects the set with the type error and writes nothing; a proxy over the
empty table 0 accepts the set of key "x" to 1. -/
theorem C7_setattr_amended_witness :
    (LuaObject_setattr (mkSt [] [(5, LuaValue.number 3)] [] allocAll) 5
        (PyValue.str "x") (PyValue.int 1)).2 = -1 ∧
    (LuaObject_setattr (mkSt [] [(5, LuaValue.number 3)] [] allocAll) 5
        (PyValue.str "x") (PyValue.int 1)).1.err
      = some (ErrKind.typeError, "Lua object is not a table") ∧
    (LuaObject_setattr (mkSt [] [(5, LuaValue.number 3)] [] allocAll) 5
        (PyValue.str "x") (PyValue.int 1)).1.tables
      = (mkSt [] [(5, LuaValue.number 3)] [] allocAll).tables ∧
    (LuaObject_setattr (mkSt [] [(7, LuaValue.table 0)] [(0, [])] allocAll) 7
        (PyValue.str "x") (PyValue.int 1)).2 = 0 ∧
    (LuaObject_setattr (mkSt [] [(7, LuaValue.table 0)] [(0, [])] allocAll) 7
        (PyValue.str "x") (PyValue.int 1)).1.tables
      = tablesUpdate (mkSt [] [(7, LuaValue.table 0)] [(0, [])] allocAll).tables 0
          (setEntry (lookupTable (mkSt [] [(7, LuaValue.table 0)] [(0, [])] allocAll) 0)
            (guestOfPrim (PyValue.str "x")) (guestOfPrim (PyValue.int 1))) ∧
    (LuaObject_setattr (mkSt [] [(7, LuaValue.table 0)] [(0, [])] allocAll) 7
        (PyValue.str "x") (PyValue.int 1)).1.stack = [] :=
  C7_setattr_amended (mkSt [] [(5, LuaValue.number 3)] [] allocAll)
    (mkSt [] [(7, LuaValue.table 0)] [(0, [])] allocAll) 5 7 (LuaValue.number 3) 0
    (PyValue.str "x") (PyValue.int 1) rfl rfl rfl (by decide) rfl rfl

/-- Helper: a simple Guest key is not nil. -/
theorem simpleKey_ne_nil (k : LuaValue) (hk : isSimpleKey k = true) : k ≠ LuaValue.nil := by
  cases k <;> first | exact fun h => LuaValue.noConfusion h | exact Bool.noConfusion hk

/-- Helper: converting a simple Guest value sitting on top of the stack
yields the corresponding Host value and touches nothing but the
allocation tick. -/
theorem LuaConvert_simpleKey (st : St) (k : LuaValue) (tl : List LuaValue)
    (hs : st.stack = k :: tl) (hk : isSimpleKey k = true) (ha : AllocsOk st) :
    ∃ t, LuaConvert st (-1) = ({ st with tick := t }, some (pyOfSimple k)) := by
  have hg : stackGet st.stack (-1) = k := by rw [hs]; exact stackGet_neg1 k tl
  cases k with
  | boolean b =>
      refine ⟨st.tick, ?_⟩
      simp only [LuaConvert]
      rw [hg]
      rfl
  | str s =>
      refine ⟨st.tick + 1, ?_⟩
      simp only [LuaConvert]
      rw [hg]
      dsimp only [allocTick]
      rw [ha]
      rfl
  | number q =>
      refine ⟨st.tick + 1, ?_⟩
      simp only [LuaConvert]
      rw [hg]
      dsimp only [allocTick]
      rw [if_neg (show ¬(q ≠ ((ratTrunc q : ℤ) : ℚ)) from fun hne => hne (of_decide_eq_true hk))]
      rw [ha]
      rfl
  | nil => exact Bool.noConfusion hk
  | table i => exact Bool.noConfusion hk
  | func i => exact Bool.noConfusion hk
  | userdata h2 => exact Bool.noConfusion hk
  | thread i => exact Bool.noConfusion hk

/-- Helper: a freshly stored registry binding is found first. -/
theorem regLookup_cons_self (r : Int) (v : LuaValue) (reg : List (Int × LuaValue)) :
    regLookup ((r, v) :: reg) r = v := by
  simp [regLookup]

/-- Helper: a released registry handle reads as nil. -/
theorem regLookup_erase (reg : List (Int × LuaValue)) (r : Int) :
    regLookup (reg.filter (fun p => p.1 ≠ r)) r = LuaValue.nil := by
  unfold regLookup
  have h : (reg.filter (fun p => p.1 ≠ r)).lookup r = Option.none := by
    induction reg with
    | nil => rfl
    | cons p rest ih =>
        rcases p with ⟨k, v⟩
        rw [List.filter_cons]
        by_cases h1 : k = r
        · rw [if_neg (by simp [h1])]
          exact ih
        · rw [if_pos (by simp [h1])]
          simp only [List.lookup]
          rw [show (r == k) = false from beq_eq_false_iff_ne.mpr (fun hh => h1 hh.symm)]
          exact ih
  rw [h]
  rfl

/-- Helper: `lua_next` at index -2 with the table below the cursor key,
when the traversal yields a next pair: pop the key, push that pair. -/
theorem lua_next_cons_some (st : St) (tid : Nat) (k k2 v2 : LuaValue) (tl : List LuaValue)
    (hs : st.stack = k :: LuaValue.table tid :: tl)
    (hn : nextEntry (lookupTable st tid) k = Except.ok (some (k2, v2))) :
    lua_next st (-2) = (push (push (pop1 st) k2) v2, Except.ok true) := by
  unfold lua_next
  dsimp only
  rw [show stackGet st.stack (-2) = LuaValue.table tid from by
    rw [hs]; exact stackGet_neg2 k (LuaValue.table tid) tl]
  dsimp only
  rw [show top st = k from by unfold top; rw [hs]; rfl]
  rw [hn]

/-- Helper: `lua_next` at index -2 with the table below the cursor key,
when the traversal is exhausted: pop the key, push nothing. -/
theorem lua_next_cons_none (st : St) (tid : Nat) (k : LuaValue) (tl : List LuaValue)
    (hs : st.stack = k :: LuaValue.table tid :: tl)
    (hn : nextEntry (lookupTable st tid) k = Except.ok Option.none) :
    lua_next st (-2) = (pop1 st, Except.ok false) := by
  unfold lua_next
  dsimp only
  rw [show stackGet st.stack (-2) = LuaValue.table tid from by
    rw [hs]; exact stackGet_neg2 k (LuaValue.table tid) tl]
  dsimp only
  rw [show top st = k from by unfold top; rw [hs]; rfl]
  rw [hn]

set_option maxHeartbeats 1000000 in
/-- C3, amended: for every proxy over a Guest composite with a remaining
entry, each call of the iteration-next operation invokes the Guest next
primitive, pops the value component of the produced key/value pair
without converting it, converts and returns the KEY component to the
Host caller (not the value component, as it was claimed), and stores
that same key as the new cursor — allocating a fresh registry handle on
the first call and overwriting that same handle on later calls;
exhaustion releases the handle and resets the cursor to `LUA_NOREF`.
Keys range over the simple (allocation-only) convertible class; the
entry values are arbitrary, which shows the returned Host value never
depends on them. -/
theorem C3_iternext_amended (st : St) (ref : Int) (tid : Nat)
    (ha : AllocsOk st) (hr : regLookup st.registry ref = LuaValue.table tid) :
    (∀ k0 v0 rest, lookupTable st tid = (k0, v0) :: rest → isSimpleKey k0 = true →
      (LuaObject_iternext st ref LUA_NOREF).2.1 = some (pyOfSimple k0) ∧
      (LuaObject_iternext st ref LUA_NOREF).2.2 = st.nextRef ∧
      regLookup (LuaObject_iternext st ref LUA_NOREF).1.registry st.nextRef = k0) ∧
    (∀ r0 k1 v1, r0 ≠ LUA_NOREF → isSimpleKey k1 = true →
      nextEntry (lookupTable st tid) (regLookup st.registry r0) = Except.ok (some (k1, v1)) →
      (LuaObject_iternext st ref r0).2.1 = some (pyOfSimple k1) ∧
      (LuaObject_iternext st ref r0).2.2 = r0 ∧
      regLookup (LuaObject_iternext st ref r0).1.registry r0 = k1) ∧
    (∀ r0, r0 ≠ LUA_NOREF → 0 ≤ r0 →
      nextEntry (lookupTable st tid) (regLookup st.registry r0) = Except.ok Option.none →
      (LuaObject_iternext st ref r0).2.1 = Option.none ∧
      (LuaObject_iternext st ref r0).2.2 = LUA_NOREF ∧
      regLookup (LuaObject_iternext st ref r0).1.registry r0 = LuaValue.nil) := by
  have hrw : rawgeti st ref = push st (LuaValue.table tid) := by
    unfold rawgeti; rw [hr]
  refine ⟨?_, ?_, ?_⟩
  · intro k0 v0 rest he hk
    obtain ⟨t, hcv⟩ := LuaConvert_simpleKey
      { st with stack := k0 :: LuaValue.table tid :: st.stack } k0
      (LuaValue.table tid :: st.stack) rfl hk (fun n => ha n)
    have hnx : nextEntry (lookupTable st tid) LuaValue.nil = Except.ok (some (k0, v0)) := by
      unfold nextEntry
      rw [if_pos rfl]
      rw [he]
      rfl
    have hB := lua_next_cons_some
      { st with
        stack := LuaValue.nil :: LuaValue.table tid :: st.stack, panic := pyLuaPanicId }
      tid LuaValue.nil k0 v0 st.stack rfl hnx
    have hT : TRY_ENDTRY (push (push st (LuaValue.table tid)) LuaValue.nil)
          (fun s => lua_next s (-2))
        = ({ st with stack := v0 :: k0 :: LuaValue.table tid :: st.stack }, some true) := by
      unfold TRY_ENDTRY
      dsimp only [push]
      rw [hB]
      rfl
    have hlr : luaL_ref { st with
          stack := k0 :: LuaValue.table tid :: st.stack, tick := t }
        = ({ st with
             stack := LuaValue.table tid :: st.stack,
             registry := (st.nextRef, k0) :: st.registry,
             nextRef := st.nextRef + 1, tick := t }, st.nextRef) := by
      unfold luaL_ref
      dsimp only [top, pop1, List.headD, List.tail]
      rw [if_neg (simpleKey_ne_nil k0 hk)]
    have hfull : LuaObject_iternext st ref LUA_NOREF
        = ({ st with
             stack := LuaValue.table tid :: st.stack,
             registry := (st.nextRef, k0) :: st.registry,
             nextRef := st.nextRef + 1, tick := t },
           some (pyOfSimple k0), st.nextRef) := by
      unfold LuaObject_iternext
      dsimp only
      rw [hrw]
      rw [if_pos (show LUA_NOREF = LUA_NOREF from rfl)]
      rw [if_pos (show LUA_NOREF = LUA_NOREF from rfl)]
      rw [hT]
      dsimp only
      rw [show (some true).getD false = true from rfl]
      rw [if_pos (show true = true from rfl)]
      rw [show pop1 { st with stack := v0 :: k0 :: LuaValue.table tid :: st.stack }
            = { st with stack := k0 :: LuaValue.table tid :: st.stack } from rfl]
      rw [hcv]
      dsimp only
      rw [hlr]
    exact ⟨by rw [hfull], by rw [hfull],
      by rw [hfull]; exact regLookup_cons_self st.nextRef k0 st.registry⟩
  · intro r0 k1 v1 hr0 hk1 hne
    obtain ⟨t, hcv⟩ := LuaConvert_simpleKey
      { st with stack := k1 :: LuaValue.table tid :: st.stack } k1
      (LuaValue.table tid :: st.stack) rfl hk1 (fun n => ha n)
    have hB := lua_next_cons_some
      { st with
        stack := regLookup st.registry r0 :: LuaValue.table tid :: st.stack,
        panic := pyLuaPanicId }
      tid (regLookup st.registry r0) k1 v1 st.stack rfl hne
    have hT : TRY_ENDTRY (rawgeti (push st (LuaValue.table tid)) r0)
          (fun s => lua_next s (-2))
        = ({ st with stack := v1 :: k1 :: LuaValue.table tid :: st.stack }, some true) := by
      unfold TRY_ENDTRY
      dsimp only [rawgeti, push]
      rw [hB]
      rfl
    have hrs : lua_rawseti { st with
          stack := k1 :: LuaValue.table tid :: st.stack, tick := t } r0
        = { st with
            stack := LuaValue.table tid :: st.stack,
            registry := (r0, k1) :: st.registry.filter (fun p => p.1 ≠ r0), tick := t } := by
      unfold lua_rawseti
      dsimp only [top, pop1, List.headD, List.tail]
      rw [if_neg (simpleKey_ne_nil k1 hk1)]
    have hfull : LuaObject_iternext st ref r0
        = ({ st with
             stack := LuaValue.table tid :: st.stack,
             registry := (r0, k1) :: st.registry.filter (fun p => p.1 ≠ r0), tick := t },
           some (pyOfSimple k1), r0) := by
      unfold LuaObject_iternext
      dsimp only
      rw [hrw]
      simp only [if_neg hr0]
      rw [hT]
      dsimp only
      rw [show (some true).getD false = true from rfl]
      rw [if_pos (show true = true from rfl)]
      rw [show pop1 { st with stack := v1 :: k1 :: LuaValue.table tid :: st.stack }
            = { st with stack := k1 :: LuaValue.table tid :: st.stack } from rfl]
      rw [hcv]
      dsimp only
      rw [hrs]
    exact ⟨by rw [hfull], by rw [hfull],
      by rw [hfull]; exact regLookup_cons_self r0 k1 (st.registry.filter (fun p => p.1 ≠ r0))⟩
  · intro r0 hr0 h0 hne
    have hB := lua_next_cons_none
      { st with
        stack := regLookup st.registry r0 :: LuaValue.table tid :: st.stack,
        panic := pyLuaPanicId }
      tid (regLookup st.registry r0) st.stack rfl hne
    have hT : TRY_ENDTRY (rawgeti (push st (LuaValue.table tid)) r0)
          (fun s => lua_next s (-2))
        = ({ st with stack := LuaValue.table tid :: st.stack }, some false) := by
      unfold TRY_ENDTRY
      dsimp only [rawgeti, push]
      rw [hB]
      rfl
    have hun : luaL_unref { st with stack := LuaValue.table tid :: st.stack } r0
        = { st with
            stack := LuaValue.table tid :: st.stack,
            registry := st.registry.filter (fun p => p.1 ≠ r0) } := by
      unfold luaL_unref
      rw [if_pos h0]
    have hfull : LuaObject_iternext st ref r0
        = ({ st with
             stack := LuaValue.table tid :: st.stack,
             registry := st.registry.filter (fun p => p.1 ≠ r0) },
           Option.none, LUA_NOREF) := by
      unfold LuaObject_iternext
      dsimp only
      rw [hrw]
      simp only [if_neg hr0]
      rw [hT]
      dsimp only
      rw [show (some false).getD false = false from rfl]
      rw [if_neg (show ¬(false = true) from Bool.false_ne_true)]
      rw [if_pos hr0]
      rw [hun]
    exact ⟨by rw [hfull], by rw [hfull],
      by rw [hfull]; exact regLookup_erase st.registry r0⟩

/-- Witness for C3: a proxy (handle 5) over the one-entry table
binding the key "a" to the number 10 satisfies the hypotheses; its
first iteration-next call returns the key "a" (not the value 10),
hands out cursor handle 1 and stores the key under it. -/
theorem C3_iternext_amended_witness :
    AllocsOk (mkSt [] [(5, LuaValue.table 0)]
        [(0, [(LuaValue.str "a", LuaValue.number 10)])] allocAll) ∧
    regLookup (mkSt [] [(5, LuaValue.table 0)]
        [(0, [(LuaValue.str "a", LuaValue.number 10)])] allocAll).registry 5
      = LuaValue.table 0 ∧
    lookupTable (mkSt [] [(5, LuaValue.table 0)]
        [(0, [(LuaValue.str "a", LuaValue.number 10)])] allocAll) 0
      = (LuaValue.str "a", LuaValue.number 10) :: [] ∧
    isSimpleKey (LuaValue.str "a") = true ∧
    (LuaObject_iternext (mkSt [] [(5, LuaValue.table 0)]
        [(0, [(LuaValue.str "a", LuaValue.number 10)])] allocAll) 5 LUA_NOREF).2.1
      = some (PyValue.str "a") ∧
    (LuaObject_iternext (mkSt [] [(5, LuaValue.table 0)]
        [(0, [(LuaValue.str "a", LuaValue.number 10)])] allocAll) 5 LUA_NOREF).2.2 = 1 ∧
    regLookup (LuaObject_iternext (mkSt [] [(5, LuaValue.table 0)]
        [(0, [(LuaValue.str "a", LuaValue.number 10)])] allocAll) 5 LUA_NOREF).1.registry 1
      = LuaValue.str "a" :=
  ⟨fun _ => rfl, rfl, rfl, rfl,
   (C3_iternext_amended (mkSt [] [(5, LuaValue.table 0)]
       [(0, [(LuaValue.str "a", LuaValue.number 10)])] allocAll) 5 0
       (fun _ => rfl) rfl).1 (LuaValue.str "a") (LuaValue.number 10) [] rfl rfl⟩

/-- Helper: converting any Host value other than "none" to the Guest
succeeds (with `allow_none` unset, "none" is the only rejected value in
the spec-modelled converter). -/
theorem e_py_convert_ok_ne_none (st : St) (a : PyValue) (h : a ≠ PyValue.none) :
    (e_py_convert st a false).2 = true := by
  cases a <;> first | exact absurd rfl h | rfl

/-- Helper: marshalling an argument tuple whose first unconvertible item
sits at position `pre.length` fails exactly there, resets the stack and
sets the type error naming that position. -/
theorem pushArgs_fails (rest : List PyValue) :
    ∀ (pre : List PyValue) (st : St) (c : Nat), (∀ a ∈ pre, a ≠ PyValue.none) →
    (pushArgs st (pre ++ PyValue.none :: rest) c).2 = some (c + pre.length) ∧
    (pushArgs st (pre ++ PyValue.none :: rest) c).1.stack = [] ∧
    (pushArgs st (pre ++ PyValue.none :: rest) c).1.err
      = some (ErrKind.typeError, "failed to convert argument #" ++ toString (c + pre.length)) := by
  intro pre
  induction pre with
  | nil =>
      intro st c _
      refine ⟨by simp [pushArgs, e_py_convert, TRY_ENDTRY, py_convert], ?_, ?_⟩
      · rfl
      · simp only [List.length_nil, Nat.add_zero]
        rfl
  | cons a pre ih =>
      intro st c hpre
      have ha : a ≠ PyValue.none := hpre a (List.mem_cons_self a pre)
      have hpre2 : ∀ b ∈ pre, b ≠ PyValue.none := fun b hb => hpre b (List.mem_cons_of_mem a hb)
      rcases he : e_py_convert st a false with ⟨st1, rc⟩
      have hrc : rc = true := by
        have := e_py_convert_ok_ne_none st a ha
        rw [he] at this
        exact this
      subst hrc
      have harith : c + 1 + pre.length = c + (a :: pre).length := by
        simp [List.length_cons]; omega
      have step : pushArgs st ((a :: pre) ++ PyValue.none :: rest) c
          = pushArgs st1 (pre ++ PyValue.none :: rest) (c + 1) := by
        simp only [List.cons_append, pushArgs]
        rw [he]
        rfl
      have hres := ih st1 (c + 1) hpre2
      rw [step, ← harith]
      exact hres

/-- C6: when converting a Host argument fails (the argument at position
`pre.length` is the rejected "none", every earlier argument being
convertible), the Guest Call Bridge aborts before performing the call:
the result is failure, the Guest stack is reset to empty, a type error
names the failing argument's position, and the outcome is the same for
every guest callee `f`/`g` — the protected call is never reached. -/
theorem C6_arg_conversion_abort (f g : GuestFn) (st : St) (pre rest : List PyValue)
    (hpre : ∀ a ∈ pre, a ≠ PyValue.none) :
    (LuaCall f st (pre ++ PyValue.none :: rest)).2 = none ∧
    (LuaCall f st (pre ++ PyValue.none :: rest)).1.stack = [] ∧
    (LuaCall f st (pre ++ PyValue.none :: rest)).1.err
      = some (ErrKind.typeError, "failed to convert argument #" ++ toString pre.length) ∧
    LuaCall f st (pre ++ PyValue.none :: rest) = LuaCall g st (pre ++ PyValue.none :: rest) := by
  obtain ⟨h1, h2, h3⟩ := pushArgs_fails rest pre st 0 hpre
  rcases hE : pushArgs st (pre ++ PyValue.none :: rest) 0 with ⟨st1, io⟩
  rw [hE] at h1 h2 h3
  dsimp only at h1 h2 h3
  subst h1
  have hL : ∀ h : GuestFn, LuaCall h st (pre ++ PyValue.none :: rest) = (st1, none) := by
    intro h
    simp only [LuaCall]
    rw [hE]
  refine ⟨by rw [hL f], ?_, ?_, by rw [hL f, hL g]⟩
  · rw [hL f]; exact h2
  · rw [hL f]
    simpa using h3

/-- Witness for C6: calling with arguments (True, None) — None at
position 1 — aborts with the type error naming position 1, identically
for a succeeding and a failing callee. -/
theorem C6_arg_conversion_abort_witness :
    (∀ a ∈ [PyValue.bool true], a ≠ PyValue.none) ∧
    ((LuaCall (fun _ _ => GuestResult.ok []) (mkSt [LuaValue.func 0] [] [] allocAll)
        ([PyValue.bool true] ++ PyValue.none :: [])).2 = none ∧
     (LuaCall (fun _ _ => GuestResult.ok []) (mkSt [LuaValue.func 0] [] [] allocAll)
        ([PyValue.bool true] ++ PyValue.none :: [])).1.stack = [] ∧
     (LuaCall (fun _ _ => GuestResult.ok []) (mkSt [LuaValue.func 0] [] [] allocAll)
        ([PyValue.bool true] ++ PyValue.none :: [])).1.err
       = some (ErrKind.typeError,
           "failed to convert argument #" ++ toString [PyValue.bool true].length) ∧
     LuaCall (fun _ _ => GuestResult.ok []) (mkSt [LuaValue.func 0] [] [] allocAll)
        ([PyValue.bool true] ++ PyValue.none :: [])
       = LuaCall (fun _ _ => GuestResult.fail "g") (mkSt [LuaValue.func 0] [] [] allocAll)
        ([PyValue.bool true] ++ PyValue.none :: [])) := by
  have hpre : ∀ a ∈ [PyValue.bool true], a ≠ PyValue.none := by
    intro a ha
    rw [List.mem_singleton] at ha
    subst ha
    exact fun h => PyValue.noConfusion h
  exact ⟨hpre, C6_arg_conversion_abort (fun _ _ => GuestResult.ok [])
    (fun _ _ => GuestResult.fail "g") (mkSt [LuaValue.func 0] [] [] allocAll)
    [PyValue.bool true] [] hpre⟩

/-- Helper: truncation toward zero agrees with the integer it casts
from. -/
theorem ratTrunc_intCast (z : ℤ) : ratTrunc ((z : ℤ) : ℚ) = z := by
  unfold ratTrunc
  split
  · exact Int.ceil_intCast z
  · exact Int.floor_intCast z

/-- C9: `evaluate` compiles the text "return " prepended to the source
as a single chunk while `execute` compiles the source unmodified (first
conjunct: running with the eval flag equals running the prefixed text
without it, for every callee and state), and both request exactly 1
result from the protected call: a chunk producing two results hands only
the first one back to the Host (second and fourth conjuncts, for execute
and evaluate), and a chunk producing none yields the padding nil,
converted to Host "none" (third conjunct). -/
theorem C9_run_return_prefix (compile : String → Except String LuaValue) (st : St)
    (s s2 : String) (chunk : LuaValue) (z1 z2 : ℤ)
    (ha : AllocsOk st) (hc : compile s = Except.ok chunk)
    (hc2 : compile ("return " ++ s) = Except.ok chunk) :
    (∀ (g : GuestFn) (st2 : St), LuaState_run compile g st2 s2 true
        = LuaState_run compile g st2 ("return " ++ s2) false) ∧
    (LuaState_run compile
        (fun _ _ => GuestResult.ok [LuaValue.number (z1 : ℚ), LuaValue.number (z2 : ℚ)])
        st s false).2 = some (PyValue.int z1) ∧
    (LuaState_run compile (fun _ _ => GuestResult.ok []) st s false).2 = some PyValue.none ∧
    (LuaState_run compile
        (fun _ _ => GuestResult.ok [LuaValue.number (z1 : ℚ), LuaValue.number (z2 : ℚ)])
        st s true).2 = some (PyValue.int z1) := by
  have hp : lua_pcall
      (fun _ _ => GuestResult.ok [LuaValue.number (z1 : ℚ), LuaValue.number (z2 : ℚ)])
      (push st chunk) 0 (some 1)
      = ({ st with stack := LuaValue.number (z1 : ℚ) :: st.stack }, true) := rfl
  have hp0 : lua_pcall (fun _ _ => GuestResult.ok []) (push st chunk) 0 (some 1)
      = ({ st with stack := LuaValue.nil :: st.stack }, true) := rfl
  have hmain : ∀ (sx : String), compile sx = Except.ok chunk →
      (LuaState_run compile
        (fun _ _ => GuestResult.ok [LuaValue.number (z1 : ℚ), LuaValue.number (z2 : ℚ)])
        st sx false).2 = some (PyValue.int z1) := by
    intro sx hcx
    simp only [LuaState_run]
    rw [if_neg Bool.false_ne_true, hcx]
    dsimp only
    rw [hp]
    dsimp only [LuaConvert, allocTick]
    rw [stackGet_neg1]
    dsimp only
    rw [ratTrunc_intCast]
    rw [if_neg (show ¬(((z1 : ℤ) : ℚ) ≠ ((z1 : ℤ) : ℚ)) from fun h => h rfl)]
    dsimp only
    rw [ha]
    rfl
  have heval : ∀ (g : GuestFn) (st2 : St), LuaState_run compile g st2 s2 true
      = LuaState_run compile g st2 ("return " ++ s2) false := by
    intro g st2
    rfl
  refine ⟨heval, hmain s hc, ?_, ?_⟩
  · simp only [LuaState_run]
    rw [if_neg Bool.false_ne_true, hc]
    dsimp only
    rw [hp0]
    rfl
  · have heq : LuaState_run compile
        (fun _ _ => GuestResult.ok [LuaValue.number (z1 : ℚ), LuaValue.number (z2 : ℚ)])
        st s true
      = LuaState_run compile
        (fun _ _ => GuestResult.ok [LuaValue.number (z1 : ℚ), LuaValue.number (z2 : ℚ)])
        st ("return " ++ s) false := rfl
    rw [heq]
    exact hmain ("return " ++ s) hc2

/-- Witness for C9: a compiler accepting every buffer, a fresh state and
a chunk producing the numbers 3 and 4 — execute and evaluate both hand
back only the 3; a chunk producing nothing yields Host "none". -/
theorem C9_run_return_prefix_witness :
    AllocsOk (mkSt [] [] [] allocAll) ∧
    (LuaState_run (fun _ => Except.ok (LuaValue.func 7))
        (fun _ _ => GuestResult.ok [LuaValue.number ((3 : ℤ) : ℚ), LuaValue.number ((4 : ℤ) : ℚ)])
        (mkSt [] [] [] allocAll) "1+1" false).2 = some (PyValue.int 3) ∧
    (LuaState_run (fun _ => Except.ok (LuaValue.func 7)) (fun _ _ => GuestResult.ok [])
        (mkSt [] [] [] allocAll) "1+1" false).2 = some PyValue.none ∧
    (LuaState_run (fun _ => Except.ok (LuaValue.func 7))
        (fun _ _ => GuestResult.ok [LuaValue.number ((3 : ℤ) : ℚ), LuaValue.number ((4 : ℤ) : ℚ)])
        (mkSt [] [] [] allocAll) "1+1" true).2 = some (PyValue.int 3) := by
  have h := C9_run_return_prefix (fun _ => Except.ok (LuaValue.func 7))
    (mkSt [] [] [] allocAll) "1+1" "x" (LuaValue.func 7) 3 4 (fun _ => rfl) rfl rfl
  exact ⟨fun _ => rfl, h.2.1, h.2.2.1, h.2.2.2⟩

theorem stackGet_reverse (l : List LuaValue) (j : Nat) (hj : j < l.length) :
    stackGet l.reverse (Int.ofNat (j + 1)) = l.getD j LuaValue.nil := by
  unfold stackGet
  rw [if_neg (by simp only [Int.ofNat_eq_coe]; omega)]
  rw [if_pos (by
    constructor
    · simp only [Int.ofNat_eq_coe]; omega
    · rw [List.length_reverse]
      rw [show (Int.ofNat (j + 1)).toNat = j + 1 from rfl]
      omega)]
  rw [show (Int.ofNat (j + 1)).toNat = j + 1 from rfl]
  rw [List.length_reverse]
  rw [List.getD_eq_getElem?_getD, List.getD_eq_getElem?_getD]
  rw [List.getElem?_reverse (by omega)]
  rw [show l.length - 1 - (l.length - (j + 1)) = j from by omega]

theorem stack_read (l : List ℤ) (j : Nat) (hj : j < l.length) :
    stackGet ((l.map fun z => LuaValue.number ((z : ℤ) : ℚ)).reverse) (Int.ofNat (j + 1))
      = LuaValue.number ((l.getD j 0 : ℤ) : ℚ) := by
  rw [stackGet_reverse _ j (by simpa using hj)]
  rw [List.getD_eq_getElem?_getD, List.getElem?_map]
  rw [List.getElem?_eq_getElem hj]
  rw [List.getD_eq_getElem?_getD, List.getElem?_eq_getElem hj]
  rfl

theorem convertResults_ints (k : Nat) :
    ∀ (st : St) (i : Nat) (f : Nat → ℤ), AllocsOk st →
    (∀ j, j < k → stackGet st.stack (Int.ofNat (i + j + 1))
        = LuaValue.number ((f j : ℤ) : ℚ)) →
    (convertResults st k i).2 = some ((List.range k).map fun j => PyValue.int (f j)) := by
  induction k with
  | zero => intro st i f _ _; rfl
  | succ k ih =>
      intro st i f ha hstk
      have h0 : stackGet st.stack (Int.ofNat (i + 1)) = LuaValue.number ((f 0 : ℤ) : ℚ) := by
        have := hstk 0 (Nat.succ_pos k)
        rwa [Nat.add_zero] at this
      have hcv : LuaConvert st (Int.ofNat (i + 1))
          = ({ st with tick := st.tick + 1 }, some (PyValue.int (f 0))) := by
        simp only [LuaConvert]
        rw [h0]
        dsimp only [allocTick]
        rw [ratTrunc_intCast]
        rw [if_neg (show ¬(((f 0 : ℤ) : ℚ) ≠ ((f 0 : ℤ) : ℚ)) from fun h => h rfl)]
        rw [ha]
        rfl
      simp only [convertResults]
      rw [hcv]
      have hrec := ih { st with tick := st.tick + 1 } (i + 1) (fun j => f (j + 1))
        ha
        (by
          intro j hjk
          have := hstk (j + 1) (by omega)
          rw [show i + (j + 1) + 1 = i + 1 + j + 1 from by omega] at this
          exact this)
      rcases hE : convertResults { st with tick := st.tick + 1 } k (i + 1) with ⟨st2, vs⟩
      rw [hE] at hrec
      dsimp only at hrec
      subst hrec
      dsimp only
      rw [List.range_succ_eq_map, List.map_cons, List.map_map]
      rfl

theorem map_range_getD (zs : List ℤ) :
    (List.range zs.length).map (fun j => PyValue.int (zs.getD j 0)) = zs.map PyValue.int := by
  induction zs with
  | nil => rfl
  | cons z t ih =>
      rw [List.length_cons, List.range_succ_eq_map, List.map_cons, List.map_map]
      rw [List.map_cons, ← ih]
      rfl

/-- C5: the Guest Call Bridge (LuaCall) maps the number of results of a successful
protected call to the Host result as follows: zero results return the Host none
sentinel, exactly one result returns that single result converted via the Value
Converter, and more than one result returns a Host tuple containing all results in
order, each converted; the Guest stack is reset afterwards. Here the callee returns
the integer list zs as Guest numbers. -/
theorem C5_result_mapping (st : St) (callee : LuaValue) (zs : List ℤ)
    (ha : AllocsOk st) (hs : st.stack = [callee]) :
    (LuaCall (fun _ _ => GuestResult.ok (zs.map fun z => LuaValue.number ((z : ℤ) : ℚ))) st []).2
      = some (match zs with
              | [] => PyValue.none
              | [z] => PyValue.int z
              | _ => PyValue.tuple (zs.map PyValue.int)) ∧
    (LuaCall (fun _ _ => GuestResult.ok (zs.map fun z => LuaValue.number ((z : ℤ) : ℚ))) st []).1.stack
      = [] := by
  have hpc : lua_pcall (fun _ _ => GuestResult.ok (zs.map fun z => LuaValue.number ((z : ℤ) : ℚ))) st 0 none
      = ({ st with stack := (zs.map fun z => LuaValue.number ((z : ℤ) : ℚ)).reverse }, true) := by
    unfold lua_pcall
    rw [hs]
    dsimp only
    rw [show List.drop (0 + 1) [callee] = ([] : List LuaValue) from rfl, List.append_nil]
  have hlen : ({ st with stack := (zs.map fun z => LuaValue.number ((z : ℤ) : ℚ)).reverse } : St).stack.length
      = zs.length := by
    dsimp only
    rw [List.length_reverse, List.length_map]
  simp only [LuaCall]
  dsimp only [pushArgs]
  simp only [List.length_nil]
  rw [hpc]
  dsimp only
  rw [hlen]
  match zs with
  | [] => exact ⟨rfl, rfl⟩
  | [z] =>
      have hcv : LuaConvert ({ st with stack := ([z].map fun z => LuaValue.number ((z : ℤ) : ℚ)).reverse } : St) 1
          = ({ st with
               stack := [LuaValue.number ((z : ℤ) : ℚ)], tick := st.tick + 1 },
             some (PyValue.int z)) := by
        simp only [LuaConvert]
        rw [show stackGet (([z].map fun z => LuaValue.number ((z : ℤ) : ℚ)).reverse) 1
              = LuaValue.number ((z : ℤ) : ℚ) from rfl]
        dsimp only [allocTick]
        rw [ratTrunc_intCast]
        rw [if_neg (show ¬(((z : ℤ) : ℚ) ≠ ((z : ℤ) : ℚ)) from fun h => h rfl)]
        rw [ha]
        rfl
      rw [show ([z].length == 1) = true from rfl]
      rw [if_pos rfl]
      rw [hcv]
      exact ⟨rfl, rfl⟩
  | z1 :: z2 :: t =>
      have hne : ((z1 :: z2 :: t).length == 1) = false := by
        simp only [List.length_cons]
        exact beq_eq_false_iff_ne.mpr (by omega)
      rw [hne]
      rw [if_neg Bool.false_ne_true]
      rw [if_pos (show (z1 :: z2 :: t).length > 1 by simp only [List.length_cons]; omega)]
      dsimp only [allocTick]
      rw [ha]
      rw [if_pos rfl]
      have hcr := convertResults_ints (z1 :: z2 :: t).length
        ({ st with
            stack := ((z1 :: z2 :: t).map (fun z => LuaValue.number ((z : ℤ) : ℚ))).reverse,
            tick := st.tick + 1 } : St) 0
        (fun j => (z1 :: z2 :: t).getD j 0) ha
        (by
          intro j hj
          rw [show (0 + j + 1) = j + 1 from by omega]
          exact stack_read (z1 :: z2 :: t) j hj)
      rcases hE : convertResults
          ({ st with
              stack := ((z1 :: z2 :: t).map (fun z => LuaValue.number ((z : ℤ) : ℚ))).reverse,
              tick := st.tick + 1 } : St) (z1 :: z2 :: t).length 0 with ⟨st4, vs⟩
      rw [hE] at hcr
      dsimp only at hcr
      subst hcr
      rw [map_range_getD]
      exact ⟨rfl, rfl⟩

theorem C5_result_mapping_witness :
    AllocsOk (mkSt [LuaValue.func 0] [] [] allocAll) ∧
    (mkSt [LuaValue.func 0] [] [] allocAll).stack = [LuaValue.func 0] ∧
    ((LuaCall (fun _ _ => GuestResult.ok (([(7 : ℤ), (8 : ℤ)]).map fun z => LuaValue.number ((z : ℤ) : ℚ)))
        (mkSt [LuaValue.func 0] [] [] allocAll) []).2
        = some (PyValue.tuple [PyValue.int 7, PyValue.int 8]) ∧
      (LuaCall (fun _ _ => GuestResult.ok (([(7 : ℤ), (8 : ℤ)]).map fun z => LuaValue.number ((z : ℤ) : ℚ)))
        (mkSt [LuaValue.func 0] [] [] allocAll) []).1.stack = []) :=
  ⟨fun _ => rfl, rfl,
   C5_result_mapping (mkSt [LuaValue.func 0] [] [] allocAll) (LuaValue.func 0)
     [(7 : ℤ), (8 : ℤ)] (fun _ => rfl) rfl⟩
